import Mathlib

/-!
Shallow embedding of `src/activity-tracker.js` (a browser activity tracker).

The DOM is modelled from the element's point of view, as the functions of the
source read it: an element carries its tag name (raw, as the DOM reports it,
e.g. upper case), its `id` and `className` strings (the DOM yields `""` when
the attribute is absent), the optional attributes the handlers read
(`name`, `type`, `value`, `innerText`, `href`; `Option` models a property
that can be `undefined`), a flag for identity with `document.body`, the
summary of its preceding sibling nodes (tag for element nodes, `nodeType`
for the rest; the locator loops read nothing else from siblings), and an
optional parent element. JavaScript truthiness of a string property is
"not the empty string and not undefined"; functions that the source lets
return `undefined` are embedded with result type `Option`.
-/

set_option autoImplicit false

namespace ActivityTracker

/-- Summary of a sibling node as the locator loops observe it: an element
node exposes its raw tag name; any other node only its `nodeType`
(its `tagName` is `undefined`, so tag comparisons against it fail). -/
inductive Sib : Type where
  | elemNode (tagName : String)
  | otherNode (nodeType : Nat)
  deriving DecidableEq

/-- A DOM element as read by the tracker: attribute strings, the flag
for being `document.body`, preceding siblings, and the optional parent. -/
inductive Element : Type where
  | mk (tagName id className : String)
       (nameAttr typeAttr value innerText href : Option String)
       (isBody : Bool) (prevSibs : List Sib) (parent : Option Element)

def Element.tagName : Element → String
  | .mk t _ _ _ _ _ _ _ _ _ _ => t

def Element.id : Element → String
  | .mk _ i _ _ _ _ _ _ _ _ _ => i

def Element.className : Element → String
  | .mk _ _ c _ _ _ _ _ _ _ _ => c

def Element.nameAttr : Element → Option String
  | .mk _ _ _ n _ _ _ _ _ _ _ => n

def Element.typeAttr : Element → Option String
  | .mk _ _ _ _ ty _ _ _ _ _ _ => ty

def Element.value : Element → Option String
  | .mk _ _ _ _ _ v _ _ _ _ _ => v

def Element.innerText : Element → Option String
  | .mk _ _ _ _ _ _ it _ _ _ _ => it

def Element.href : Element → Option String
  | .mk _ _ _ _ _ _ _ h _ _ _ => h

def Element.isBody : Element → Bool
  | .mk _ _ _ _ _ _ _ _ b _ _ => b

def Element.prevSibs : Element → List Sib
  | .mk _ _ _ _ _ _ _ _ _ s _ => s

def Element.parent : Element → Option Element
  | .mk _ _ _ _ _ _ _ _ _ _ p => p

/-!
## JavaScript string primitives

The source uses `toLowerCase()`, `split(" ")` and `substring(0, 50)`.
They are embedded as structurally recursive functions over the character
list so that concrete runs reduce inside the kernel: ASCII lower-casing
(tag and type strings are ASCII), splitting on the single space character
(JS `split(" ")` keeps empty pieces), and taking a prefix of at most
50 characters.
-/

/-- JS `s.toLowerCase()` on the ASCII strings the tracker handles. -/
def jsToLower (s : String) : String := ⟨s.data.map Char.toLower⟩

/-- Worker for `jsSplitOnSpace`: `acc` holds the current piece reversed. -/
def splitOnSpaceAux : List Char → List Char → List String
  | [], acc => [String.mk acc.reverse]
  | c :: rest, acc =>
    if c = ' ' then String.mk acc.reverse :: splitOnSpaceAux rest []
    else splitOnSpaceAux rest (c :: acc)

/-- JS `s.split(" ")`: pieces between single spaces, empties kept. -/
def jsSplitOnSpace (s : String) : List String := splitOnSpaceAux s.data []

/-- JS `s.substring(0, n)`. -/
def jsTake (n : Nat) (s : String) : String := ⟨s.data.take n⟩

/-!
## Element classification (`getEventObjectType`, source lines 564-661)
-/

/-- Embedding of the `switch (type)` of `getEventObjectType` (source lines
573-601). The scrutinee is `element.type?.toLowerCase()`: when the property
is absent it is `undefined`, which matches no case label and lands in the
switch default, `INPUT_FIELD`; otherwise the lower-cased string is
compared against the case labels. -/
def inputTypeSwitch (subtype : Option String) : String :=
  match subtype with
  | none => "INPUT_FIELD"
  | some t0 =>
    match jsToLower t0 with
    | "text" | "password" | "email" | "search" | "tel" | "url" => "TEXT_FIELD"
    | "checkbox" => "CHECKBOX"
    | "radio" => "RADIO_BUTTON"
    | "file" => "FILE_UPLOAD"
    | "submit" | "button" => "BUTTON"
    | "range" => "SLIDER"
    | "date" | "time" | "datetime-local" => "DATE_PICKER"
    | "color" => "COLOR_PICKER"
    | _ => "INPUT_FIELD"

/-- Embedding of the `switch (tagName)` of `getEventObjectType` (source
lines 605-660), the non-form tag table with the `ELEMENT` default. -/
def tagSwitch (tagName : String) : String :=
  match tagName with
    | "a" => "LINK"
    | "button" => "BUTTON"
    | "img" => "IMAGE"
    | "video" => "VIDEO"
    | "audio" => "AUDIO"
    | "iframe" => "IFRAME"
    | "canvas" => "CANVAS"
    | "svg" => "SVG"
    | "table" => "TABLE"
    | "ul" | "ol" => "LIST"
    | "li" => "LIST_ITEM"
    | "div" => "CONTAINER"
    | "span" => "TEXT_SPAN"
    | "p" => "PARAGRAPH"
    | "h1" | "h2" | "h3" | "h4" | "h5" | "h6" => "HEADING"
    | "form" => "FORM"
    | "label" => "LABEL"
    | "nav" => "NAVIGATION"
    | "header" => "HEADER"
    | "footer" => "FOOTER"
    | "section" => "SECTION"
    | "article" => "ARTICLE"
    | "main" => "MAIN_CONTENT"
    | _ => "ELEMENT"

/-- Embedding of `getEventObjectType` (source lines 564-661): lower-case the
tag; the form tags `input`/`textarea`/`select` go through the `type` switch,
with `select` short-circuiting to `DROP_DOWN`; every other tag goes through
the tag switch. -/
def getEventObjectType (e : Element) : String :=
  let tagName := jsToLower e.tagName
  if ["input", "textarea", "select"].contains tagName then
    if tagName = "select" then "DROP_DOWN"
    else inputTypeSwitch e.typeAttr
  else tagSwitch tagName

/-- Spec-side subtype table, following the spec's words (section 4.1):
"inspect the subtype string (lower-cased) and map via a fixed table:
text/password/email/search/tel/url to TEXT_FIELD; checkbox to CHECKBOX;
radio to RADIO_BUTTON; file to FILE_UPLOAD; submit/button to BUTTON;
range to SLIDER; date/time/datetime-local to DATE_PICKER; color to
COLOR_PICKER; anything else (including absent subtype) to INPUT_FIELD". -/
def subtypeTableSpec (subtype : Option String) : String :=
  match subtype with
  | none => "INPUT_FIELD"
  | some t0 =>
    let t := jsToLower t0
    if t = "text" ∨ t = "password" ∨ t = "email"
        ∨ t = "search" ∨ t = "tel" ∨ t = "url" then "TEXT_FIELD"
    else if t = "checkbox" then "CHECKBOX"
    else if t = "radio" then "RADIO_BUTTON"
    else if t = "file" then "FILE_UPLOAD"
    else if t = "submit" ∨ t = "button" then "BUTTON"
    else if t = "range" then "SLIDER"
    else if t = "date" ∨ t = "time" ∨ t = "datetime-local" then "DATE_PICKER"
    else if t = "color" then "COLOR_PICKER"
    else "INPUT_FIELD"

/-- Spec-side tag table, following the spec's words (section 4.1): "map tag
name via a second fixed table (a, button, img, video, audio, iframe, canvas,
svg, table, ul/ol to LIST, li, div, span, p, h1-h6 to HEADING, form, label,
nav, header, footer, section, article, main) to its label", with "any tag
not covered by either table" falling back to ELEMENT. -/
def tagTableSpec (tag : String) : String :=
  if tag = "a" then "LINK"
  else if tag = "button" then "BUTTON"
  else if tag = "img" then "IMAGE"
  else if tag = "video" then "VIDEO"
  else if tag = "audio" then "AUDIO"
  else if tag = "iframe" then "IFRAME"
  else if tag = "canvas" then "CANVAS"
  else if tag = "svg" then "SVG"
  else if tag = "table" then "TABLE"
  else if tag = "ul" ∨ tag = "ol" then "LIST"
  else if tag = "li" then "LIST_ITEM"
  else if tag = "div" then "CONTAINER"
  else if tag = "span" then "TEXT_SPAN"
  else if tag = "p" then "PARAGRAPH"
  else if tag = "h1" ∨ tag = "h2" ∨ tag = "h3"
      ∨ tag = "h4" ∨ tag = "h5" ∨ tag = "h6" then "HEADING"
  else if tag = "form" then "FORM"
  else if tag = "label" then "LABEL"
  else if tag = "nav" then "NAVIGATION"
  else if tag = "header" then "HEADER"
  else if tag = "footer" then "FOOTER"
  else if tag = "section" then "SECTION"
  else if tag = "article" then "ARTICLE"
  else if tag = "main" then "MAIN_CONTENT"
  else "ELEMENT"

/-- Spec-side classifier, assembled from the spec's words (section 4.1):
"If the element's tag is one of \x7binput, textarea, select\x7d: if tag is
select then DROP_DOWN. Otherwise inspect the subtype"; "Else map tag name
via a second fixed table"; "Any tag not covered by either table:
fallback ELEMENT". -/
def classifySpec (e : Element) : String :=
  let tag := jsToLower e.tagName
  if tag = "input" ∨ tag = "textarea" ∨ tag = "select" then
    if tag = "select" then "DROP_DOWN"
    else subtypeTableSpec e.typeAttr
  else tagTableSpec tag

/-!
## Locators (`getCssSelector`, lines 689-721; `getXPath`, lines 728-749)
-/

/-- Does a sibling node match `sibling.nodeType === 1 && sibling.tagName ===
element.tagName` (and likewise the `previousElementSibling` chain's
`sibling.tagName === element.tagName`)? Only element nodes carry a tag;
a non-element node's `tagName` is `undefined` and never equals a string. -/
def sibMatches (tag : String) : Sib → Bool
  | .elemNode t => t = tag
  | .otherNode _ => false

/-- Embedding of the sibling-counting loops of the source: both the
`previousElementSibling` walk of `getCssSelector` (lines 708-713) and the
`childNodes` scan of `getXPath` (lines 740-748) count, among the nodes
preceding the element, the element nodes whose raw `tagName` equals the
element's. The loops visit these siblings one at a time; the count is the
same whichever direction the list is traversed. -/
def countSameTag (tag : String) : List Sib → Nat
  | [] => 0
  | s :: rest => (if sibMatches tag s then 1 else 0) + countSameTag tag rest

/-- Embedding of the `while (element.parentElement)` loop of `getCssSelector`
(lines 700-718), producing the list of path segments in ancestor-to-descendant
order (the loop builds it with `unshift`). When the current element has no
parent the loop body never runs and no segment is emitted for it; when it has
an id the segment `tag#id` is emitted and the loop breaks; otherwise the
segment is `tag` or `tag:nth-of-type(nth)` for `nth > 1`, where `nth` is one
more than the number of preceding same-tag element siblings. -/
def cssPath : Element → List String
  | .mk _ _ _ _ _ _ _ _ _ _ none => []
  | .mk tag id _ _ _ _ _ _ _ sibs (some p) =>
    if id ≠ "" then [jsToLower tag ++ "#" ++ id]
    else
      let nth := countSameTag tag sibs + 1
      let sel := if nth > 1 then
          jsToLower tag ++ ":nth-of-type(" ++ toString nth ++ ")"
        else jsToLower tag
      cssPath p ++ [sel]

/-- Embedding of `getCssSelector` (lines 689-721): a truthy `id` yields
`#id` at once; else a truthy `className` yields the shallow
`tag.class1.class2...` from splitting `className` on single spaces and
dropping falsy (empty) pieces; else the ancestor walk, joined with " > ". -/
def getCssSelector (e : Element) : String :=
  if e.id ≠ "" then "#" ++ e.id
  else if e.className ≠ "" then
    jsToLower e.tagName ++ "." ++
      String.intercalate "." ((jsSplitOnSpace e.className).filter (fun c => c != ""))
  else
    String.intercalate " > " (cssPath e)

/-- JavaScript coercion of a possibly-`undefined` string into string
concatenation: `undefined + "/x"` is the string "undefined/x". -/
def jsStr : Option String → String
  | some s => s
  | none => "undefined"

/-- Embedding of `getXPath` (lines 728-749). A truthy `id` returns the id
XPath; `element === document.body` returns the constant root path; with no
`parentNode` the `for` loop runs over an empty `childNodes` list and the
function falls through, returning `undefined` (`none` here); otherwise the
loop finds the element among its parent's `childNodes`, having counted `ix`
preceding element nodes of the same tag, and returns the parent's recursive
path (coerced through string concatenation if `undefined`) followed by
`/tag[ix+1]`. -/
def getXPath : Element → Option String
  | .mk tag id _ _ _ _ _ _ body sibs par =>
    if id ≠ "" then some ("//*[@id=\"" ++ id ++ "\"]")
    else if body then some "/html/body"
    else
      match par with
      | none => none
      | some p =>
        some (jsStr (getXPath p) ++ "/" ++ jsToLower tag ++ "["
          ++ toString (countSameTag tag sibs + 1) ++ "]")

/-- The element's class list: `className` split on spaces with the empty
pieces dropped, exactly the list whose dot-join the class branch of
`getCssSelector` emits (line 695). -/
def classList (e : Element) : List String :=
  (jsSplitOnSpace e.className).filter (fun c => c != "")

/-- Spec-side occurrence count, following the spec's words: "a 1-based
occurrence index among preceding siblings of the same tag name" /
"a 1-based count of preceding sibling elements (element-type nodes only)
sharing the same tag name" — here the number of preceding element-type
siblings sharing the tag, to which 1 is added for the element itself. -/
def sameTagCountSpec (tag : String) (sibs : List Sib) : Nat :=
  (sibs.filter (sibMatches tag)).length

/-- Spec-side ancestor walk, following the spec's words (section 4.2): "walk
from the element up through ancestors (stopping at the first ancestor with
an id, which terminates the walk and is included as tag#id), and at each
level compute a 1-based occurrence index among preceding siblings of the
same tag name; emit tag or tag:nth-of-type(n) when n>1"; the walk also
stops at the root (a node with no further parent), whose own segment is not
emitted. Segments are in ancestor-to-descendant order. -/
def locatorWalkSpec : Element → List String
  | .mk _ _ _ _ _ _ _ _ _ _ none => []
  | .mk tag id _ _ _ _ _ _ _ sibs (some p) =>
    if id ≠ "" then [jsToLower tag ++ "#" ++ id]
    else
      let n := sameTagCountSpec tag sibs + 1
      locatorWalkSpec p ++
        [if n > 1 then jsToLower tag ++ ":nth-of-type(" ++ toString n ++ ")"
         else jsToLower tag]

/-!
## Termination measures (claim about lines 699-721 and 728-749)
-/

/-- Number of nodes on the chain from the element up to and including the
root: the document tree depth of the element. -/
def Element.depth : Element → Nat
  | .mk _ _ _ _ _ _ _ _ _ _ none => 1
  | .mk _ _ _ _ _ _ _ _ _ _ (some p) => p.depth + 1

/-- Fuel-indexed variant of `cssPath`: `none` when the fuel runs out before
the walk finishes, `some` of the path otherwise. Each loop iteration moves
to the parent, one step closer to the root, so depth-many steps of fuel
suffice. -/
def cssPathFuel : Nat → Element → Option (List String)
  | 0, _ => none
  | _ + 1, .mk _ _ _ _ _ _ _ _ _ _ none => some []
  | fuel + 1, .mk tag id _ _ _ _ _ _ _ sibs (some p) =>
    if id ≠ "" then some [jsToLower tag ++ "#" ++ id]
    else
      let nth := countSameTag tag sibs + 1
      let sel := if nth > 1 then
          jsToLower tag ++ ":nth-of-type(" ++ toString nth ++ ")"
        else jsToLower tag
      match cssPathFuel fuel p with
      | none => none
      | some rest => some (rest ++ [sel])

/-- Fuel-indexed variant of `getXPath`: outer `none` when the fuel runs out
before the recursion bottoms out, `some` of the result (itself an
`Option String`, as `getXPath` can return `undefined`) otherwise. -/
def getXPathFuel : Nat → Element → Option (Option String)
  | 0, _ => none
  | fuel + 1, .mk tag id _ _ _ _ _ _ body sibs par =>
    if id ≠ "" then some (some ("//*[@id=\"" ++ id ++ "\"]"))
    else if body then some (some "/html/body")
    else
      match par with
      | none => some none
      | some p =>
        match getXPathFuel fuel p with
        | none => none
        | some r =>
          some (some (jsStr r ++ "/" ++ jsToLower tag ++ "["
            ++ toString (countSameTag tag sibs + 1) ++ "]"))

/-!
## Throttle (`throttle`, source lines 776-785)

`throttle(func, delay)` closes over `let lastCall = 0`; an invocation at
time `now` runs `func` and sets `lastCall := now` when
`now - lastCall >= delay`, and otherwise does nothing. Each wrapped handler
of the source (e.g. `handleScrollEvent`, lines 275-299, or
`handleResizeEvent`) appends exactly one record to the event list per
invocation that runs, so the records appended by a throttled handler are
identified below by the timestamps of the accepted invocations.
-/

/-- Records appended by a throttled handler invoked at the given times, the
throttle state (`lastCall`) starting from `last`. -/
def runThrottledFrom (delay last : Int) : List Int → List Int
  | [] => []
  | t :: rest =>
    if t - last ≥ delay then t :: runThrottledFrom delay t rest
    else runThrottledFrom delay last rest

/-- Records appended by a freshly wrapped throttled handler
(`let lastCall = 0`) invoked at the given times. -/
def runThrottledHandler (delay : Int) (times : List Int) : List Int :=
  runThrottledFrom delay 0 times

/-- Two independently wrapped throttled handlers (tags `false` and `true`,
delays `d1` and `d2`, states `l1` and `l2`), invoked by one interleaved
stream of tagged invocations; result is the interleaved stream of accepted
invocations. Each `throttle(...)` call in `registerEventListeners`
(lines 135-156) creates its own closure with its own `lastCall`. -/
def runTwoThrottledFrom (d1 d2 l1 l2 : Int) :
    List (Bool × Int) → List (Bool × Int)
  | [] => []
  | (false, t) :: rest =>
    if t - l1 ≥ d1 then (false, t) :: runTwoThrottledFrom d1 d2 t l2 rest
    else runTwoThrottledFrom d1 d2 l1 l2 rest
  | (true, t) :: rest =>
    if t - l2 ≥ d2 then (true, t) :: runTwoThrottledFrom d1 d2 l1 t rest
    else runTwoThrottledFrom d1 d2 l1 l2 rest

/-- The subsequence of a tagged invocation stream belonging to one handler. -/
def handlerTimes (which : Bool) (evts : List (Bool × Int)) : List Int :=
  evts.filterMap (fun p => if p.1 = which then some p.2 else none)

/-!
## Export (`exportEventsAsJSON`, source lines 821-829)

`exportEventsAsJSON` builds `\x7b session, events, exportTime \x7d` and
returns `JSON.stringify(exportData, null, 2)`. The claim about it concerns
the parsed-back document (explicitly not byte-exact formatting), so the
embedding works at the JSON document-tree level: `exportEventsAsJSON`
below is the document tree the source serializes, `JSON.parse` of
`JSON.stringify` of a tree being that tree again.
-/

/-- JSON document trees. -/
inductive Json : Type where
  | null
  | bool (b : Bool)
  | num (n : Int)
  | str (s : String)
  | arr (elems : List Json)
  | obj (fields : List (String × Json))

/-- First field of an object with the given key. -/
def lookupField : List (String × Json) → String → Option Json
  | [], _ => none
  | (k, v) :: rest, key => if k = key then some v else lookupField rest key

/-- Field access on a parsed document. -/
def Json.getField : Json → String → Option Json
  | .obj fields, key => lookupField fields key
  | _, _ => none

/-- Length of a JSON array, if the value is one. -/
def Json.arrayLength : Json → Option Nat
  | .arr xs => some xs.length
  | _ => none

/-- The tracker's session object (`ActivityTracker.session`, lines 19-26),
with `sessionId` and `startTime` as filled by `initActivityTracker`. -/
structure Session where
  sessionId : String
  startTime : String
  pageUrl : String
  userAgent : String
  screenResolution : String
  viewport : String

/-- Serialization of the session object. -/
def Session.toJson (s : Session) : Json :=
  .obj [("sessionId", .str s.sessionId), ("startTime", .str s.startTime),
        ("pageUrl", .str s.pageUrl), ("userAgent", .str s.userAgent),
        ("screenResolution", .str s.screenResolution),
        ("viewport", .str s.viewport)]

/-- In-memory tracker state the export reads: `ActivityTracker.events`
(each stored record serialized as a JSON value) and
`ActivityTracker.session`. -/
structure TrackerState where
  events : List Json
  session : Session

/-- Embedding of `exportEventsAsJSON` (lines 821-829) at the document-tree
level: the object `\x7b session: ActivityTracker.session, events:
ActivityTracker.events, exportTime: <timestamp> \x7d` that the source
passes to `JSON.stringify`. -/
def exportEventsAsJSON (st : TrackerState) (exportTime : String) : Json :=
  .obj [("session", st.session.toJson), ("events", .arr st.events),
        ("exportTime", .str exportTime)]

/-!
## Stored record fields (`handleClickEvent`, lines 169-223;
`handleChangeEvent`, lines 374-402)

JavaScript `x || "N/A"` substitutes the sentinel whenever `x` is falsy,
i.e. when the string is empty as well as when the property is absent.
-/

/-- JavaScript `x || d` for a possibly-`undefined` string `x`. -/
def jsOr (v : Option String) (d : String) : String :=
  match v with
  | some s => if s = "" then d else s
  | none => d

/-- JavaScript `x || d` for a plain string `x`. -/
def jsOrStr (s d : String) : String :=
  if s = "" then d else s

/-- The `element` field of a stored click record (lines 180-187). -/
structure ClickElementInfo where
  tagName : String
  id : String
  className : String
  text : String
  href : String
  typeAttr : String
  deriving DecidableEq

/-- Embedding of the `element` field assembled by `handleClickEvent`
(lines 180-187): `id || "N/A"`, `className || "N/A"`,
`innerText?.substring(0, 50) || "N/A"`, `href || "N/A"`,
`type || "N/A"`. -/
def clickElementInfo (e : Element) : ClickElementInfo :=
  { tagName := jsToLower e.tagName
    id := jsOrStr e.id "N/A"
    className := jsOrStr e.className "N/A"
    text := jsOr (e.innerText.map (jsTake 50)) "N/A"
    href := jsOr e.href "N/A"
    typeAttr := jsOr e.typeAttr "N/A" }

/-- The `element` field of a stored change record (lines 383-389). -/
structure ChangeElementInfo where
  tagName : String
  id : String
  nameAttr : String
  typeAttr : String
  value : String
  deriving DecidableEq

/-- Embedding of the `element` field assembled by `handleChangeEvent`
(lines 383-389): `id || "N/A"`, `name || "N/A"`, `type || "N/A"`,
`value?.substring(0, 50) || "N/A"`. -/
def changeElementInfo (e : Element) : ChangeElementInfo :=
  { tagName := jsToLower e.tagName
    id := jsOrStr e.id "N/A"
    nameAttr := jsOr e.nameAttr "N/A"
    typeAttr := jsOr e.typeAttr "N/A"
    value := jsOr (e.value.map (jsTake 50)) "N/A" }

/-- The same element with its `value` property replaced. -/
def Element.withValue : Element → Option String → Element
  | .mk t i c n ty _ it h b s p, v => .mk t i c n ty v it h b s p

/-!
## Concrete documents used by the examples and witnesses
-/

/-- A root `<html>` element. -/
def htmlEl : Element :=
  .mk "HTML" "" "" none none none none none false [] none

/-- The `<body>` under it. -/
def bodyEl : Element :=
  .mk "BODY" "" "" none none none none none true [] (some htmlEl)

/-- A `<ul>` with no id and no classes inside the body. -/
def ulEl : Element :=
  .mk "UL" "" "" none none none none none false [] (some bodyEl)

/-- The third of three `<li>` siblings with no ids and no classes inside
the `<ul>`. -/
def li3El : Element :=
  .mk "LI" "" "" none none none none none false
    [.elemNode "LI", .elemNode "LI"] (some ulEl)

/-- The third of three `<li>` siblings, identical to `li3El` except that
its `className` is a single space: its class list is empty, but the
string is truthy. -/
def liSpaceEl : Element :=
  .mk "LI" "" " " none none none none none false
    [.elemNode "LI", .elemNode "LI"] (some ulEl)

/-- An element with an id (and classes, to exercise the short-circuit). -/
def idButtonEl : Element :=
  .mk "BUTTON" "save-btn" "btn primary" none none none none none false
    [.elemNode "DIV"] (some bodyEl)

/-- An element with classes and no id. -/
def classDivEl : Element :=
  .mk "DIV" "" "card  shadowed" none none none none none false [] (some bodyEl)

/-- A detached element: no id, not the body, no parent. -/
def detachedEl : Element :=
  .mk "SPAN" "" "" none none none none none false [.otherNode 3] none

/-- A checkbox input with empty className and empty value. -/
def checkboxEl : Element :=
  .mk "INPUT" "" "" (some "opts") (some "checkbox") (some "") none none false
    [] (some bodyEl)

/-!
## Helper lemmas
-/

theorem inputTypeSwitch_eq_spec : ∀ o, inputTypeSwitch o = subtypeTableSpec o := by
  intro o
  cases o with
  | none => rfl
  | some s =>
    simp only [inputTypeSwitch, subtypeTableSpec]
    generalize jsToLower s = t
    split
    case h_17 =>
      rename_i m1 m2 m3 m4 m5 m6 m7 m8 m9 m10 m11 m12 m13 m14 m15 m16
      rw [if_neg (fun h => h.elim m1 (fun h => h.elim m2 (fun h => h.elim m3
            (fun h => h.elim m4 (fun h => h.elim m5 m6))))),
        if_neg m7, if_neg m8, if_neg m9,
        if_neg (fun h => h.elim m10 m11), if_neg m12,
        if_neg (fun h => h.elim m13 (fun h => h.elim m14 m15)), if_neg m16]
    all_goals rfl

theorem tagSwitch_eq_spec : ∀ t, tagSwitch t = tagTableSpec t := by
  intro t
  simp only [tagSwitch, tagTableSpec]
  split
  case h_30 =>
    rename_i l1 l2 l3 l4 l5 l6 l7 l8 l9 l10 l11 l12 l13 l14 l15 l16 l17 l18
      l19 l20 l21 l22 l23 l24 l25 l26 l27 l28 l29
    rw [if_neg l1, if_neg l2, if_neg l3, if_neg l4, if_neg l5, if_neg l6,
      if_neg l7, if_neg l8, if_neg l9, if_neg (fun h => h.elim l10 l11),
      if_neg l12, if_neg l13, if_neg l14, if_neg l15,
      if_neg (fun h => h.elim l16 (fun h => h.elim l17 (fun h => h.elim l18
        (fun h => h.elim l19 (fun h => h.elim l20 l21))))),
      if_neg l22, if_neg l23, if_neg l24, if_neg l25, if_neg l26, if_neg l27,
      if_neg l28, if_neg l29]
  all_goals rfl

theorem countSameTag_eq_filter (tag : String) : ∀ sibs : List Sib,
    countSameTag tag sibs = (sibs.filter (sibMatches tag)).length := by
  intro sibs
  induction sibs with
  | nil => rfl
  | cons s rest ih =>
    cases h : sibMatches tag s <;>
      simp [countSameTag, List.filter_cons, h, ih, Nat.add_comm]

theorem Element.depth_pos : ∀ e : Element, 0 < e.depth := by
  intro e
  cases e with
  | mk t i c na ty v it hr b s p => cases p <;> simp [Element.depth]

theorem cssPath_eq_walkSpec (e : Element) : cssPath e = locatorWalkSpec e := by
  suffices h : ∀ (n : Nat) (e : Element), e.depth ≤ n →
      cssPath e = locatorWalkSpec e from h e.depth e le_rfl
  intro n
  induction n with
  | zero =>
    intro e he
    exact absurd he (by have := Element.depth_pos e; omega)
  | succ m ih =>
    intro e he
    cases e with
    | mk t i c na ty v it hr b s p =>
      cases p with
      | none => rfl
      | some q =>
        have hq : q.depth ≤ m := by
          simp only [Element.depth] at he; omega
        simp only [cssPath, locatorWalkSpec, ih q hq, countSameTag_eq_filter,
          sameTagCountSpec]

theorem cssPathFuel_complete : ∀ (n : Nat) (e : Element), e.depth ≤ n →
    cssPathFuel n e = some (cssPath e) := by
  intro n
  induction n with
  | zero =>
    intro e he
    exact absurd he (by have := Element.depth_pos e; omega)
  | succ m ih =>
    intro e he
    cases e with
    | mk t i c na ty v it hr b s p =>
      cases p with
      | none => rfl
      | some q =>
        have hq : q.depth ≤ m := by
          simp only [Element.depth] at he; omega
        simp only [cssPathFuel, cssPath, ih q hq]
        split <;> rfl

theorem getXPathFuel_complete : ∀ (n : Nat) (e : Element), e.depth ≤ n →
    getXPathFuel n e = some (getXPath e) := by
  intro n
  induction n with
  | zero =>
    intro e he
    exact absurd he (by have := Element.depth_pos e; omega)
  | succ m ih =>
    intro e he
    cases e with
    | mk t i c na ty v it hr b s p =>
      cases p with
      | none =>
        simp only [getXPathFuel, getXPath]
        split
        · rfl
        · split <;> rfl
      | some q =>
        have hq : q.depth ≤ m := by
          simp only [Element.depth] at he; omega
        simp only [getXPathFuel, getXPath, ih q hq]
        split
        · rfl
        · split <;> rfl

theorem runTwoThrottled_indep (d1 d2 : Int) :
    ∀ (evts : List (Bool × Int)) (l1 l2 : Int),
      handlerTimes false (runTwoThrottledFrom d1 d2 l1 l2 evts)
          = runThrottledFrom d1 l1 (handlerTimes false evts)
      ∧ handlerTimes true (runTwoThrottledFrom d1 d2 l1 l2 evts)
          = runThrottledFrom d2 l2 (handlerTimes true evts) := by
  intro evts
  induction evts with
  | nil => exact fun l1 l2 => ⟨rfl, rfl⟩
  | cons hd rest ih =>
    intro l1 l2
    obtain ⟨b, t⟩ := hd
    cases b
    · by_cases hacc : t - l1 ≥ d1
      · have hih := ih t l2
        simp only [handlerTimes] at hih
        simp [runTwoThrottledFrom, hacc, handlerTimes, List.filterMap_cons,
          runThrottledFrom, hih.1, hih.2]
      · have hih := ih l1 l2
        simp only [handlerTimes] at hih
        simp [runTwoThrottledFrom, hacc, handlerTimes, List.filterMap_cons,
          runThrottledFrom, hih.1, hih.2]
    · by_cases hacc : t - l2 ≥ d2
      · have hih := ih l1 t
        simp only [handlerTimes] at hih
        simp [runTwoThrottledFrom, hacc, handlerTimes, List.filterMap_cons,
          runThrottledFrom, hih.1, hih.2]
      · have hih := ih l1 l2
        simp only [handlerTimes] at hih
        simp [runTwoThrottledFrom, hacc, handlerTimes, List.filterMap_cons,
          runThrottledFrom, hih.1, hih.2]

/-!
## Claim theorems
-/

/-- C1: for every element, `getEventObjectType` returns exactly the category
label prescribed by the spec's two fixed tables: among the form tags,
`select` yields DROP_DOWN and otherwise the lower-cased subtype is mapped
through the subtype table (absent or unknown subtypes to INPUT_FIELD); any
other tag is mapped through the tag table; a tag covered by neither table
yields the ELEMENT fallback. -/
theorem classifier_matches_spec_table :
    ∀ e : Element, getEventObjectType e = classifySpec e := by
  intro e
  simp only [getEventObjectType, classifySpec, inputTypeSwitch_eq_spec,
    tagSwitch_eq_spec]
  generalize jsToLower e.tagName = tag
  by_cases h : tag = "input" ∨ tag = "textarea" ∨ tag = "select"
  · have hc : (["input", "textarea", "select"].contains tag) = true := by
      rcases h with h | h | h <;> simp [h, List.contains]
    simp [hc, h]
  · have hc : (["input", "textarea", "select"].contains tag) = false := by
      simp only [List.contains, List.elem_eq_mem, decide_eq_false_iff_not,
        List.mem_cons, List.not_mem_nil, or_false]
      tauto
    simp [hc, h]

/-- C2 (counterexample): the claim keys the ancestor walk on an empty class
list, but `getCssSelector` keys it on the truthiness of the `className`
string. A third-of-three `li` whose `className` is a single space has an
empty class list and no id, yet the code takes the class branch and returns
"li." with no ancestor walk and no `li:nth-of-type(3)` segment, unlike the
walk the claim prescribes. -/
theorem css_empty_classlist_counterexample :
    liSpaceEl.id = "" ∧ classList liSpaceEl = []
    ∧ getCssSelector liSpaceEl = "li."
    ∧ String.intercalate " > " (locatorWalkSpec liSpaceEl)
        = "body > ul > li:nth-of-type(3)"
    ∧ getCssSelector liSpaceEl ≠ String.intercalate " > " (locatorWalkSpec liSpaceEl) :=
  ⟨rfl, by decide, by decide, by decide, by decide⟩

/-- C2 (amended): for every element with no id and an empty `className`
string (the code tests the raw `className` string for truthiness, so a
whitespace-only `className`, whose class list is also empty, instead takes
the shallow class branch), `getCssSelector` performs the claimed ancestor
walk: 1-based occurrence index among preceding same-tag siblings, segment
`tag` or `tag:nth-of-type(n)` for n > 1, stopping at the first ancestor
with an id (included as `tag#id`) or at the root (not included), joined
ancestor-to-descendant with " > "; in particular the third of three `li`
siblings with no ids or classes inside a `ul` gets the segment
`li:nth-of-type(3)`. -/
theorem css_ancestor_walk_amended :
    (∀ e : Element, e.id = "" → e.className = "" →
      getCssSelector e = String.intercalate " > " (locatorWalkSpec e))
    ∧ "li:nth-of-type(3)" ∈ locatorWalkSpec li3El
    ∧ getCssSelector li3El = "body > ul > li:nth-of-type(3)" := by
  refine ⟨?_, by decide, by decide⟩
  intro e hid hcn
  simp [getCssSelector, hid, hcn, cssPath_eq_walkSpec]

/-- C2 (witness for the amended claim's hypotheses). -/
theorem css_ancestor_walk_amended_witness :
    li3El.id = "" ∧ li3El.className = ""
    ∧ getCssSelector li3El = String.intercalate " > " (locatorWalkSpec li3El) :=
  ⟨rfl, rfl, css_ancestor_walk_amended.1 li3El rfl rfl⟩

/-- C3: an element with a non-empty id short-circuits both locator builders,
whatever its classes, tag or position: `getCssSelector` returns `#id` and
`getXPath` returns the id-based XPath. -/
theorem id_locator_shortcircuit : ∀ e : Element, e.id ≠ "" →
    getCssSelector e = "#" ++ e.id
    ∧ getXPath e = some ("//*[@id=\"" ++ e.id ++ "\"]") := by
  intro e h
  cases e with
  | mk t i c na ty v it hr b s p =>
    simp only [Element.id] at h ⊢
    constructor
    · simp [getCssSelector, Element.id, h]
    · cases p <;> simp [getXPath, h]

/-- C3 (witness): the id short-circuit evaluated on a concrete element with
an id, classes, and preceding siblings. -/
theorem id_locator_shortcircuit_witness :
    idButtonEl.id ≠ ""
    ∧ getCssSelector idButtonEl = "#" ++ idButtonEl.id
    ∧ getXPath idButtonEl = some ("//*[@id=\"" ++ idButtonEl.id ++ "\"]") :=
  ⟨by decide, (id_locator_shortcircuit idButtonEl (by decide)).1,
    (id_locator_shortcircuit idButtonEl (by decide)).2⟩

/-- C4: for an element without an id, `getXPath` returns the constant root
path when the element is `document.body`, and otherwise (when a parent
exists) the parent's recursively resolved path with `/tag[k]` appended,
`k` being 1 plus the number of preceding element-type siblings sharing the
element's tag name. -/
theorem xpath_recursive_structure :
    (∀ e : Element, e.id = "" → e.isBody = true → getXPath e = some "/html/body")
    ∧ (∀ e p : Element, e.id = "" → e.isBody = false → e.parent = some p →
        getXPath e = some (jsStr (getXPath p) ++ "/" ++ jsToLower e.tagName ++ "["
          ++ toString (sameTagCountSpec e.tagName e.prevSibs + 1) ++ "]")) := by
  constructor
  · intro e hid hb
    cases e with
    | mk t i c na ty v it hr b s p =>
      simp only [Element.id] at hid
      simp only [Element.isBody] at hb
      subst hid; subst hb
      cases p <;> rfl
  · intro e p hid hb hp
    cases e with
    | mk t i c na ty v it hr b s q =>
      simp only [Element.id] at hid
      simp only [Element.isBody] at hb
      simp only [Element.parent] at hp
      subst hid; subst hb; subst hp
      simp only [Element.tagName, Element.prevSibs, sameTagCountSpec]
      rw [show getXPath (Element.mk t "" c na ty v it hr false s (some p))
            = some (jsStr (getXPath p) ++ "/" ++ jsToLower t ++ "["
              ++ toString (countSameTag t s + 1) ++ "]") from rfl,
        countSameTag_eq_filter]

/-- C4 (witness): the body short-circuit on the concrete body element, and
the recursive form on the third `li` (its parent being the `ul`). -/
theorem xpath_recursive_structure_witness :
    (bodyEl.id = "" ∧ bodyEl.isBody = true ∧ getXPath bodyEl = some "/html/body")
    ∧ (li3El.id = "" ∧ li3El.isBody = false ∧ li3El.parent = some ulEl
       ∧ getXPath li3El = some (jsStr (getXPath ulEl) ++ "/" ++ jsToLower li3El.tagName
          ++ "[" ++ toString (sameTagCountSpec li3El.tagName li3El.prevSibs + 1) ++ "]")) :=
  ⟨⟨rfl, rfl, xpath_recursive_structure.1 bodyEl rfl rfl⟩,
   ⟨rfl, rfl, rfl, xpath_recursive_structure.2 li3El ulEl rfl rfl rfl⟩⟩

/-- C5: a freshly wrapped throttled handler, past its first accepted
invocation, appends exactly one record for two invocations less than the
delay apart and two records for two invocations more than the delay apart;
and two throttles wrapped around different handlers keep independent state:
each handler's accepted invocations in an interleaved stream are exactly
those of its own throttle run alone. -/
theorem throttle_rate_limiting :
    (∀ d t1 t2 : Int, d ≤ t1 → t2 - t1 < d →
      (runThrottledHandler d [t1, t2]).length = 1)
    ∧ (∀ d t1 t2 : Int, d ≤ t1 → t2 - t1 > d →
      (runThrottledHandler d [t1, t2]).length = 2)
    ∧ (∀ (d1 d2 : Int) (evts : List (Bool × Int)) (l1 l2 : Int),
      handlerTimes false (runTwoThrottledFrom d1 d2 l1 l2 evts)
          = runThrottledFrom d1 l1 (handlerTimes false evts)
      ∧ handlerTimes true (runTwoThrottledFrom d1 d2 l1 l2 evts)
          = runThrottledFrom d2 l2 (handlerTimes true evts)) := by
  refine ⟨?_, ?_, fun d1 d2 evts l1 l2 => runTwoThrottled_indep d1 d2 evts l1 l2⟩
  · intro d t1 t2 h1 h2
    simp only [runThrottledHandler, runThrottledFrom]
    rw [if_pos (show t1 - 0 ≥ d by omega), if_neg (show ¬ (t2 - t1 ≥ d) by omega)]
    rfl
  · intro d t1 t2 h1 h2
    simp only [runThrottledHandler, runThrottledFrom]
    rw [if_pos (show t1 - 0 ≥ d by omega), if_pos (show t2 - t1 ≥ d by omega)]
    rfl

/-- C5 (witness): delay 500, invocations at 1000 and 1300 append one record;
invocations at 1000 and 1600 append two. -/
theorem throttle_rate_limiting_witness :
    ((500 : Int) ≤ 1000 ∧ (1300 : Int) - 1000 < 500
      ∧ (runThrottledHandler 500 [1000, 1300]).length = 1)
    ∧ ((1600 : Int) - 1000 > 500
      ∧ (runThrottledHandler 500 [1000, 1600]).length = 2) :=
  ⟨⟨by decide, by decide,
      throttle_rate_limiting.1 500 1000 1300 (by decide) (by decide)⟩,
   ⟨by decide,
      throttle_rate_limiting.2.1 500 1000 1600 (by decide) (by decide)⟩⟩

/-- C6: for every tracker state, the exported document's `events` field is
an array of the same length as the in-memory event list, and its
`session.sessionId` field carries the in-memory session identifier. -/
theorem export_roundtrip_preserves_count_and_session :
    ∀ (st : TrackerState) (exportTime : String),
      ((exportEventsAsJSON st exportTime).getField "events").bind Json.arrayLength
          = some st.events.length
      ∧ ((exportEventsAsJSON st exportTime).getField "session").bind
          (fun sj => sj.getField "sessionId") = some (Json.str st.session.sessionId) := by
  intro st t
  exact ⟨rfl, rfl⟩

/-- C7: an element with no id and a non-empty class list gets the shallow
selector built from its own tag and classes only, with no ancestor
segments. -/
theorem class_selector_shallow : ∀ e : Element, e.id = "" → classList e ≠ [] →
    getCssSelector e = jsToLower e.tagName ++ "." ++ String.intercalate "." (classList e) := by
  intro e hid hcl
  have hcn : e.className ≠ "" := by
    intro hc
    apply hcl
    simp only [classList]
    rw [hc]
    rfl
  cases e with
  | mk t i c na ty v it hr b s p =>
    simp only [Element.id] at hid
    simp only [Element.className] at hcn
    subst hid
    simp [getCssSelector, Element.id, Element.className, Element.tagName,
      classList, hcn]

/-- C7 (witness): a div with two classes (and a double space in its
`className`). -/
theorem class_selector_shallow_witness :
    classDivEl.id = "" ∧ classList classDivEl ≠ []
    ∧ getCssSelector classDivEl
        = jsToLower classDivEl.tagName ++ "." ++ String.intercalate "." (classList classDivEl) :=
  ⟨rfl, by decide, class_selector_shallow classDivEl rfl (by decide)⟩

/-- C8: a detached element (no `parentNode`) with no id that is not the
body makes `getXPath` fall off its loop and return `undefined` (`none`):
the call completes without raising and yields no path. -/
theorem xpath_detached_degrades : ∀ e : Element,
    e.id = "" → e.isBody = false → e.parent = none → getXPath e = none := by
  intro e hid hb hp
  cases e with
  | mk t i c na ty v it hr b s p =>
    simp only [Element.id] at hid
    simp only [Element.isBody] at hb
    simp only [Element.parent] at hp
    subst hid; subst hb; subst hp
    rfl

/-- C8 (witness): a concrete detached span. -/
theorem xpath_detached_degrades_witness :
    detachedEl.id = "" ∧ detachedEl.isBody = false ∧ detachedEl.parent = none
    ∧ getXPath detachedEl = none :=
  ⟨rfl, rfl, rfl, xpath_detached_degrades detachedEl rfl rfl rfl⟩

/-- C9: both locator walks terminate within tree-depth many steps: with at
least `depth e` fuel, the fuel-indexed versions of the `getCssSelector`
walk and of the `getXPath` recursion complete and agree with the
(structurally terminating) embeddings. -/
theorem locator_walk_terminates : ∀ (e : Element) (fuel : Nat), e.depth ≤ fuel →
    cssPathFuel fuel e = some (cssPath e)
    ∧ getXPathFuel fuel e = some (getXPath e) :=
  fun e fuel h => ⟨cssPathFuel_complete fuel e h, getXPathFuel_complete fuel e h⟩

/-- C9 (witness): the third `li` sits at depth 4; fuel 4 completes both
walks on it. -/
theorem locator_walk_terminates_witness :
    li3El.depth ≤ 4
    ∧ cssPathFuel 4 li3El = some (cssPath li3El)
    ∧ getXPathFuel 4 li3El = some (getXPath li3El) :=
  ⟨by decide, (locator_walk_terminates li3El 4 (by decide)).1,
    (locator_walk_terminates li3El 4 (by decide)).2⟩

/-- C10: the stored record fields substitute the "N/A" sentinel on
JavaScript falsiness, not on absence: an empty `className` in a click
record and an empty `value` in a change record are both stored as "N/A",
and a change record built from an element whose `value` is the empty
string is indistinguishable from one built from an element whose `value`
is absent. -/
theorem sentinel_on_falsiness :
    (∀ e : Element, e.className = "" → (clickElementInfo e).className = "N/A")
    ∧ (∀ e : Element, e.value = some "" → (changeElementInfo e).value = "N/A")
    ∧ (∀ e : Element, changeElementInfo (e.withValue (some ""))
        = changeElementInfo (e.withValue none)) := by
  refine ⟨?_, ?_, ?_⟩
  · intro e h
    show jsOrStr e.className "N/A" = "N/A"
    simp only [h]
    rfl
  · intro e h
    show jsOr (e.value.map (jsTake 50)) "N/A" = "N/A"
    simp only [h]
    rfl
  · intro e
    cases e with
    | mk t i c na ty v it hr b s p => rfl

/-- C10 (witness): a checkbox with empty `className` and empty `value`. -/
theorem sentinel_on_falsiness_witness :
    checkboxEl.className = "" ∧ (clickElementInfo checkboxEl).className = "N/A"
    ∧ checkboxEl.value = some "" ∧ (changeElementInfo checkboxEl).value = "N/A" :=
  ⟨rfl, sentinel_on_falsiness.1 checkboxEl rfl, rfl,
    sentinel_on_falsiness.2.1 checkboxEl rfl⟩

end ActivityTracker
